import Mathlib

/-!
Shallow embedding of the Databricks Genie MCP server (src/main.py).

The remote Genie HTTP API is modelled as an oracle supplying the responses
the code reads.  Each Python remote call can either raise (modelled as
`Except.error` carrying a `PyExn`) or deliver an HTTP response, which in
turn can carry an HTTP error status (`raise_for_status` then raises) and a
JSON body (absent body means `.json()` raises `ValueError`).

The three operations embedded are `get_genie_space_metadata` (and its
delegate `get_space_info`), `ask_genie` and `follow_up`.  The polling loops
additionally record an event trace: one `Event.poll` per `requests.get` of
the message status and one `Event.sleep 5` per `time.sleep(5)` call.

Return statements of the Python functions are mapped to constructors of
`Outcome`, each carrying exactly the data interpolated into the
corresponding f-string (the fixed wording of the f-strings, which differs
between `ask_genie` and `follow_up`, is not modelled; the conversation id,
status, SQL text, explanation text and result table are).
-/

/-- Python exceptions that the modelled code can raise or observe. -/
inductive PyExn where
  | httpError (msg : String)
  | timeoutErr
  | requestError (msg : String)
  | valueError
  | indexError
  | otherError (msg : String)
deriving DecidableEq

/-- Result of Python `str(e)` on a modelled exception. -/
def exnStr : PyExn → String
  | .httpError m => m
  | .timeoutErr => "Request timed out."
  | .requestError m => m
  | .valueError => "Expecting value: line 1 column 1 (char 0)"
  | .indexError => "list index out of range"
  | .otherError m => m

/-- An HTTP response: `httpError = some m` makes `raise_for_status` raise
`HTTPError m`; `body = none` makes `.json()` raise `ValueError`. -/
structure HttpResp (α : Type) where
  httpError : Option String
  body : Option α
deriving DecidableEq

/-- A response whose `raise_for_status` passes and whose body parses. -/
def cleanHttp (a : α) : Except PyExn (HttpResp α) :=
  .ok ⟨none, some a⟩

/-- JSON object with an `id` field (`data["conversation"]`, `data["message"]`). -/
structure IdObj where
  id : String
deriving DecidableEq

/-- Body of the start-conversation response (`data["conversation"]["id"]`,
`data["message"]["id"]`). -/
structure StartData where
  conversation : IdObj
  message : IdObj
deriving DecidableEq

/-- Body of the follow-up post-message response (`resp.json()["id"]`). -/
structure PostData where
  id : String
deriving DecidableEq

/-- One attachment of a completed message.  All three fields are read with
`.get`, hence optional. -/
structure Attachment where
  attachment_id : Option String
  text : Option String
  query : Option String
deriving DecidableEq

/-- One schema column; `col["name"]` is indexed directly, hence required. -/
structure Column where
  name : String
deriving DecidableEq

/-- One cell of `data_array`: `none` is Python `None`, `some s` a value whose
`str()` is `s`. -/
abbrev Cell := Option String

/-- Nested body of the query-result response, mirroring the `.get` chain
`result_json.get("statement_response", {}).get("manifest", {})...`. -/
structure ResultSchema where
  columns : Option (List Column)
deriving DecidableEq

structure Manifest where
  schema : Option ResultSchema
deriving DecidableEq

structure ResultData where
  data_array : Option (List (List Cell))
deriving DecidableEq

structure StatementResponse where
  manifest : Option Manifest
  result : Option ResultData
deriving DecidableEq

structure QueryResultJson where
  statement_response : Option StatementResponse
deriving DecidableEq

/-- Body of the get-message (poll) response: `msg_data["status"]` is indexed
directly; `msg_data.get("attachments", [])` defaults to the empty list. -/
structure MsgData where
  status : String
  attachments : List Attachment
deriving DecidableEq

/-- Body of the describe-space response; the three keys are tested with
`in`, hence optional. -/
structure SpaceJson where
  space_id : Option String
  title : Option String
  description : Option String
deriving DecidableEq

/-- Remote service behaviour visible to `ask_genie`: the start-conversation
response, the poll response for each attempt (numbered from 0), and the
query-result response as a function of the requested attachment id. -/
structure AskOracle where
  startConversation : Except PyExn (HttpResp StartData)
  getMessage : Nat → Except PyExn (HttpResp MsgData)
  getQueryResult : Option String → Except PyExn (HttpResp QueryResultJson)

/-- Remote service behaviour visible to `follow_up`. -/
structure FollowOracle where
  postMessage : Except PyExn (HttpResp PostData)
  getMessage : Nat → Except PyExn (HttpResp MsgData)
  getQueryResult : Option String → Except PyExn (HttpResp QueryResultJson)

/-- Remote service behaviour visible to `get_genie_space_metadata`. -/
structure MetaOracle where
  describeSpace : Except PyExn (HttpResp SpaceJson)

/-- Observable side effects of the polling loop: one `poll` per status
request, one `sleep n` per `time.sleep(n)`. -/
inductive Event where
  | poll
  | sleep (n : Nat)
deriving DecidableEq

/-- Normalized result table, `{"headers": headers_row, "rows": structured_rows}`;
each structured row is a Python dict modelled as an insertion-ordered
association list. -/
structure ResultTable where
  headers : List String
  rows : List (List (String × String))
deriving DecidableEq

/-- One constructor per return site of the polling operations, carrying the
data interpolated into the returned f-string. -/
inductive Outcome where
  | completedNoData
  | noData (sql : String) (text : String)
  | success (text : String) (sql : String) (table : ResultTable) (conversation_id : String)
  | terminal (status : String)
  | timeout (conversation_id : String)
  | error (msg : String)
deriving DecidableEq

/-- The kind of an outcome: the outcome with the conversation id erased. -/
inductive OutcomeKind where
  | completedNoData
  | noData (sql : String) (text : String)
  | success (text : String) (sql : String) (table : ResultTable)
  | terminal (status : String)
  | timeout
  | error (msg : String)
deriving DecidableEq

def Outcome.kind : Outcome → OutcomeKind
  | .completedNoData => .completedNoData
  | .noData sql text => .noData sql text
  | .success text sql table _ => .success text sql table
  | .terminal s => .terminal s
  | .timeout _ => .timeout
  | .error m => .error m

/-- The conversation id carried by an outcome, when it carries one. -/
def cidOf : Outcome → Option String
  | .success _ _ _ c => some c
  | .timeout c => some c
  | _ => none

/-- Python `str(cell) if cell is not None else "NULL"`. -/
def cellStr : Cell → String
  | none => "NULL"
  | some s => s

/-- Insertion into a Python dict: an existing key is updated in place, a new
key is appended. -/
def dictInsert (d : List (String × String)) (k v : String) : List (String × String) :=
  if d.any (fun p => p.1 == k) then
    d.map (fun p => if p.1 == k then (k, v) else p)
  else
    d ++ [(k, v)]

/-- The dict comprehension
`{headers_row[i]: (str(cell) if cell is not None else "NULL") for i, cell in enumerate(row)}`:
`headers_row[i]` raises `IndexError` when `i` is out of range. -/
def buildRowAux (headers_row : List String) :
    List (String × String) → Nat → List Cell → Except PyExn (List (String × String))
  | d, _, [] => .ok d
  | d, i, cell :: rest =>
    match headers_row[i]? with
    | none => .error .indexError
    | some h => buildRowAux headers_row (dictInsert d h (cellStr cell)) (i + 1) rest

def buildRow (headers_row : List String) (row : List Cell) :
    Except PyExn (List (String × String)) :=
  buildRowAux headers_row [] 0 row

/-- The outer list comprehension over `rows`: rows are processed in order and
the first raising row aborts the whole comprehension. -/
def structuredRows (headers_row : List String) :
    List (List Cell) → Except PyExn (List (List (String × String)))
  | [] => .ok []
  | row :: rest =>
    match buildRow headers_row row with
    | .error e => .error e
    | .ok d =>
      match structuredRows headers_row rest with
      | .error e => .error e
      | .ok ds => .ok (d :: ds)

/-- `result_json.get("statement_response", {}).get("manifest", {}).get("schema", {}).get("columns", [])`. -/
def schemaOf (result_json : QueryResultJson) : List Column :=
  (((result_json.statement_response.bind (fun s => s.manifest)).bind
      (fun m => m.schema)).bind (fun s => s.columns)).getD []

/-- `result_json.get("statement_response", {}).get("result", {}).get("data_array", [])`. -/
def rowsOf (result_json : QueryResultJson) : List (List Cell) :=
  ((result_json.statement_response.bind (fun s => s.result)).bind
      (fun r => r.data_array)).getD []

/-- Body of the `status == "COMPLETED"` branch of `ask_genie`
(src/main.py lines 130-176): read the attachments, fetch the query result
and format the table. -/
def completedAsk (o : AskOracle) (conversation_id : String) (msg_data : MsgData) :
    Except PyExn Outcome :=
  match msg_data.attachments with
  | [] => .ok .completedNoData
  | attachment :: _ =>
    let query_text := attachment.text.getD "No text."
    let sql := attachment.query.getD "No SQL."
    match o.getQueryResult attachment.attachment_id with
    | .error e => .error e
    | .ok result_resp =>
      match result_resp.httpError with
      | some m => .error (.httpError m)
      | none =>
        match result_resp.body with
        | none => .error .valueError
        | some result_json =>
          let schema := schemaOf result_json
          let rows := rowsOf result_json
          if schema = [] ∨ rows = [] then
            .ok (.noData sql query_text)
          else
            let headers_row := schema.map (fun col => col.name)
            match structuredRows headers_row rows with
            | .error e => .error e
            | .ok structured_rows =>
              .ok (.success query_text sql ⟨headers_row, structured_rows⟩ conversation_id)

/-- Body of the `status == "COMPLETED"` branch of `follow_up`
(src/main.py lines 217-262); textually the same computation as in
`ask_genie`, kept as its own definition because the source duplicates it. -/
def completedFollow (o : FollowOracle) (conversation_id : String) (msg_data : MsgData) :
    Except PyExn Outcome :=
  match msg_data.attachments with
  | [] => .ok .completedNoData
  | attachment :: _ =>
    let query_text := attachment.text.getD "No text."
    let sql := attachment.query.getD "No SQL."
    match o.getQueryResult attachment.attachment_id with
    | .error e => .error e
    | .ok result_resp =>
      match result_resp.httpError with
      | some m => .error (.httpError m)
      | none =>
        match result_resp.body with
        | none => .error .valueError
        | some result_json =>
          let schema := schemaOf result_json
          let rows := rowsOf result_json
          if schema = [] ∨ rows = [] then
            .ok (.noData sql query_text)
          else
            let headers_row := schema.map (fun col => col.name)
            match structuredRows headers_row rows with
            | .error e => .error e
            | .ok structured_rows =>
              .ok (.success query_text sql ⟨headers_row, structured_rows⟩ conversation_id)

/-- The `for _ in range(60)` polling loop of `ask_genie`: first argument is
the remaining fuel, second the index of the current attempt.  Falling out of
the loop returns the timeout outcome carrying the conversation id. -/
def askPollLoop (o : AskOracle) (conversation_id : String) :
    Nat → Nat → List Event × Except PyExn Outcome
  | 0, _ => ([], .ok (.timeout conversation_id))
  | fuel + 1, i =>
    match o.getMessage i with
    | .error e => ([.poll], .error e)
    | .ok msg_resp =>
      match msg_resp.httpError with
      | some m => ([.poll], .error (.httpError m))
      | none =>
        match msg_resp.body with
        | none => ([.poll], .error .valueError)
        | some msg_data =>
          if msg_data.status = "COMPLETED" then
            ([.poll], completedAsk o conversation_id msg_data)
          else if msg_data.status = "FAILED" ∨ msg_data.status = "CANCELLED" then
            ([.poll], .ok (.terminal msg_data.status))
          else
            let r := askPollLoop o conversation_id fuel (i + 1)
            (.poll :: .sleep 5 :: r.1, r.2)

/-- The `for _ in range(60)` polling loop of `follow_up`. -/
def followPollLoop (o : FollowOracle) (conversation_id : String) :
    Nat → Nat → List Event × Except PyExn Outcome
  | 0, _ => ([], .ok (.timeout conversation_id))
  | fuel + 1, i =>
    match o.getMessage i with
    | .error e => ([.poll], .error e)
    | .ok msg_resp =>
      match msg_resp.httpError with
      | some m => ([.poll], .error (.httpError m))
      | none =>
        match msg_resp.body with
        | none => ([.poll], .error .valueError)
        | some msg_data =>
          if msg_data.status = "COMPLETED" then
            ([.poll], completedFollow o conversation_id msg_data)
          else if msg_data.status = "FAILED" ∨ msg_data.status = "CANCELLED" then
            ([.poll], .ok (.terminal msg_data.status))
          else
            let r := followPollLoop o conversation_id fuel (i + 1)
            (.poll :: .sleep 5 :: r.1, r.2)

/-- Body of the `try` block of `ask_genie`: submit, then poll. -/
def askGenieBody (o : AskOracle) : List Event × Except PyExn Outcome :=
  match o.startConversation with
  | .error e => ([], .error e)
  | .ok resp =>
    match resp.httpError with
    | some m => ([], .error (.httpError m))
    | none =>
      match resp.body with
      | none => ([], .error .valueError)
      | some data => askPollLoop o data.conversation.id 60 0

/-- Body of the `try` block of `follow_up`: post the message, then poll. -/
def followUpBody (o : FollowOracle) (conversation_id : String) :
    List Event × Except PyExn Outcome :=
  match o.postMessage with
  | .error e => ([], .error e)
  | .ok resp =>
    match resp.httpError with
    | some m => ([], .error (.httpError m))
    | none =>
      match resp.body with
      | none => ([], .error .valueError)
      | some _data => followPollLoop o conversation_id 60 0

/-- The `except Exception as e: return f"... {str(e)}"` catch-all. -/
def catchOutcome : Except PyExn Outcome → Outcome
  | .ok out => out
  | .error e => .error (exnStr e)

/-- The full `ask_genie` tool: trace of polling events and final outcome. -/
def askGenie (o : AskOracle) : List Event × Outcome :=
  ((askGenieBody o).1, catchOutcome (askGenieBody o).2)

/-- The full `follow_up` tool. -/
def followUp (o : FollowOracle) (conversation_id : String) : List Event × Outcome :=
  ((followUpBody o conversation_id).1, catchOutcome (followUpBody o conversation_id).2)

/-- `ask_genie` viewed through the exception boundary: the value the caller
receives, `Except.error` meaning an exception escaped to the caller. -/
def askGenieE (o : AskOracle) : Except PyExn Outcome :=
  match (askGenieBody o).2 with
  | .ok out => .ok out
  | .error e => .ok (.error (exnStr e))

/-- `follow_up` viewed through the exception boundary. -/
def followUpE (o : FollowOracle) (conversation_id : String) : Except PyExn Outcome :=
  match (followUpBody o conversation_id).2 with
  | .ok out => .ok out
  | .error e => .ok (.error (exnStr e))

/-- The string returned when a describe-space response misses a required key. -/
def incompleteMetaMsg : String :=
  "⚠️ Incomplete space metadata received from Genie API."

/-- The formatted metadata string of `get_genie_space_metadata`. -/
def formatMeta (sid t d : String) : String :=
  " Genie Space Metadata\n\n- `space_id`: `" ++ sid ++ "`\n- `title`: `" ++ t ++
    "`\n- `description`: " ++ d

/-- Body of the `try` block of `get_genie_space_metadata`. -/
def metadataBody (o : MetaOracle) : Except PyExn String :=
  match o.describeSpace with
  | .error e => .error e
  | .ok resp =>
    match resp.httpError with
    | some m => .error (.httpError m)
    | none =>
      match resp.body with
      | none => .error .valueError
      | some data =>
        match data.space_id, data.title, data.description with
        | some sid, some t, some d => .ok (formatMeta sid t d)
        | _, _, _ => .ok incompleteMetaMsg

/-- The `except` clauses of `get_genie_space_metadata`, in source order:
`HTTPError`, `Timeout`, `RequestException`, `ValueError`, `Exception`. -/
def metadataHandler : PyExn → String
  | .httpError m => "HTTP error occurred while fetching Genie space: " ++ m
  | .timeoutErr => "Request to Genie API timed out."
  | .requestError m => "Request error occurred: " ++ m
  | .valueError => "Failed to parse JSON response from Genie API."
  | e => "An unexpected error occurred: " ++ exnStr e

/-- The full `get_genie_space_metadata` resource. -/
def getGenieSpaceMetadata (o : MetaOracle) : String :=
  match metadataBody o with
  | .ok s => s
  | .error e => metadataHandler e

/-- `get_genie_space_metadata` viewed through the exception boundary. -/
def getGenieSpaceMetadataE (o : MetaOracle) : Except PyExn String :=
  match metadataBody o with
  | .ok s => .ok s
  | .error e => .ok (metadataHandler e)

/-- The `get_space_info` tool delegates to `get_genie_space_metadata`. -/
def getSpaceInfo (o : MetaOracle) : String :=
  getGenieSpaceMetadata o

def getSpaceInfoE (o : MetaOracle) : Except PyExn String :=
  getGenieSpaceMetadataE o

/-- A remote service whose submissions succeed and whose poll responses are
well-formed, with the given status and attachment list per attempt: the
scenario shape the spec quantifies over. -/
def mkAskOracle (cid mid : String) (st : Nat → String) (atts : Nat → List Attachment)
    (qr : Option String → Except PyExn (HttpResp QueryResultJson)) : AskOracle :=
  { startConversation := cleanHttp ⟨⟨cid⟩, ⟨mid⟩⟩
    getMessage := fun i => cleanHttp ⟨st i, atts i⟩
    getQueryResult := qr }

def mkFollowOracle (mid : String) (st : Nat → String) (atts : Nat → List Attachment)
    (qr : Option String → Except PyExn (HttpResp QueryResultJson)) : FollowOracle :=
  { postMessage := cleanHttp ⟨mid⟩
    getMessage := fun i => cleanHttp ⟨st i, atts i⟩
    getQueryResult := qr }

/-- Attempt `j` of a poll-response stream is well-formed and non-terminal. -/
def NC (g : Nat → Except PyExn (HttpResp MsgData)) (j : Nat) : Prop :=
  ∃ s atts, g j = .ok ⟨none, some ⟨s, atts⟩⟩ ∧
    s ≠ "COMPLETED" ∧ s ≠ "FAILED" ∧ s ≠ "CANCELLED"

lemma dictInsert_fresh (d : List (String × String)) (k v : String)
    (h : ∀ p ∈ d, p.1 ≠ k) : dictInsert d k v = d ++ [(k, v)] := by
  have : d.any (fun p => p.1 == k) = false := by
    simp only [List.any_eq_false]
    intro p hp
    simpa using h p hp
  simp [dictInsert, this]

lemma buildRowAux_zip :
    ∀ (row : List Cell) (pre hs : List String) (d : List (String × String)),
      row.length ≤ hs.length →
      (hs.take row.length).Nodup →
      (∀ k ∈ hs.take row.length, ∀ p ∈ d, p.1 ≠ k) →
      buildRowAux (pre ++ hs) d pre.length row =
        .ok (d ++ (hs.take row.length).zip (row.map cellStr)) := by
  intro row
  induction row with
  | nil => intro pre hs d _ _ _; simp [buildRowAux]
  | cons cell rest ih =>
    intro pre hs d hlen hnodup hfresh
    cases hs with
    | nil => simp at hlen
    | cons h tl =>
      have hidx : (pre ++ h :: tl)[pre.length]? = some h := by
        rw [List.getElem?_append_right (le_refl pre.length)]
        simp
      have hne : ∀ p ∈ d, p.1 ≠ h := by
        intro p hp
        exact hfresh h (by simp) p hp
      have hstep : buildRowAux (pre ++ h :: tl) d pre.length (cell :: rest) =
          buildRowAux (pre ++ h :: tl) (d ++ [(h, cellStr cell)]) (pre.length + 1) rest := by
        simp [buildRowAux, hidx, dictInsert_fresh d h (cellStr cell) hne]
      rw [hstep]
      have hcast : pre ++ h :: tl = (pre ++ [h]) ++ tl := by simp
      have hlen1 : pre.length + 1 = (pre ++ [h]).length := by simp
      rw [hcast, hlen1]
      have htake : (h :: tl).take (cell :: rest).length = h :: tl.take rest.length := by
        simp [List.take_succ_cons]
      rw [htake] at hnodup hfresh
      have ihh := ih (pre ++ [h]) tl (d ++ [(h, cellStr cell)])
        (by simpa using hlen)
        (by exact (List.nodup_cons.mp hnodup).2)
        (by
          intro k hk p hp
          rcases List.mem_append.mp hp with hp | hp
          · exact hfresh k (by simp [hk]) p hp
          · have hph : p = (h, cellStr cell) := by simpa using hp
            subst hph
            intro hkk
            have hk2 : h = k := hkk
            subst hk2
            exact (List.nodup_cons.mp hnodup).1 hk)
      rw [ihh]
      simp [htake]

lemma buildRow_zip (headers_row : List String) (row : List Cell)
    (hlen : row.length = headers_row.length) (hnodup : headers_row.Nodup) :
    buildRow headers_row row = .ok (headers_row.zip (row.map cellStr)) := by
  have := buildRowAux_zip row [] headers_row [] (le_of_eq hlen)
    (by rw [hlen, List.take_length]; exact hnodup)
    (by intro k _ p hp; simp at hp)
  simpa [buildRow, hlen, List.take_length] using this

lemma buildRowAux_ok (headers_row : List String) :
    ∀ (row : List Cell) (i : Nat) (d : List (String × String)),
      i + row.length ≤ headers_row.length →
      ∃ d', buildRowAux headers_row d i row = .ok d' := by
  intro row
  induction row with
  | nil => intro i d _; exact ⟨d, rfl⟩
  | cons cell rest ih =>
    intro i d hlen
    have hi : i < headers_row.length := by simp at hlen; omega
    have hidx : headers_row[i]? = some headers_row[i] := List.getElem?_eq_getElem hi
    have := ih (i + 1) (dictInsert d headers_row[i] (cellStr cell)) (by simp at hlen ⊢; omega)
    obtain ⟨d', hd'⟩ := this
    exact ⟨d', by simp [buildRowAux, hidx, hd']⟩

lemma buildRowAux_err (headers_row : List String) :
    ∀ (row : List Cell) (i : Nat) (d : List (String × String)),
      row ≠ [] →
      headers_row.length < i + row.length →
      buildRowAux headers_row d i row = .error .indexError := by
  intro row
  induction row with
  | nil => intro i d hne _; exact absurd rfl hne
  | cons cell rest ih =>
    intro i d _ hlen
    cases hidx : headers_row[i]? with
    | none => simp [buildRowAux, hidx]
    | some h =>
      have hi : i < headers_row.length := by
        rcases List.getElem?_eq_some.mp hidx with ⟨hlt, _⟩
        exact hlt
      cases rest with
      | nil => simp at hlen; omega
      | cons c2 r2 =>
        have hrec := ih (i + 1) (dictInsert d h (cellStr cell)) (by simp) (by simp at hlen ⊢; omega)
        have hstep : buildRowAux headers_row d i (cell :: c2 :: r2) =
            buildRowAux headers_row (dictInsert d h (cellStr cell)) (i + 1) (c2 :: r2) := by
          simp [buildRowAux, hidx]
        rw [hstep, hrec]

lemma buildRow_err (headers_row : List String) (row : List Cell)
    (hlen : headers_row.length < row.length) :
    buildRow headers_row row = .error .indexError := by
  have hne : row ≠ [] := by
    intro h
    subst h
    simp at hlen
  exact buildRowAux_err headers_row row 0 [] hne (by omega)

lemma structuredRows_zip (headers_row : List String) :
    ∀ (rows : List (List Cell)),
      (∀ r ∈ rows, r.length = headers_row.length) →
      headers_row.Nodup →
      structuredRows headers_row rows =
        .ok (rows.map (fun r => headers_row.zip (r.map cellStr))) := by
  intro rows
  induction rows with
  | nil => intro _ _; rfl
  | cons row rest ih =>
    intro hlen hnodup
    have h1 := buildRow_zip headers_row row (hlen row (by simp)) hnodup
    have h2 := ih (fun r hr => hlen r (by simp [hr])) hnodup
    simp [structuredRows, h1, h2]

lemma structuredRows_err (headers_row : List String) :
    ∀ (rows : List (List Cell)),
      (∃ r ∈ rows, headers_row.length < r.length) →
      structuredRows headers_row rows = .error .indexError := by
  intro rows
  induction rows with
  | nil => intro h; simp at h
  | cons row rest ih =>
    intro h
    by_cases hrow : headers_row.length < row.length
    · simp [structuredRows, buildRow_err headers_row row hrow]
    · obtain ⟨r, hr, hrlen⟩ := h
      have hrrest : r ∈ rest := by
        rcases List.mem_cons.mp hr with h | h
        · subst h; omega
        · exact h
      obtain ⟨d', hd'⟩ := buildRowAux_ok headers_row row 0 [] (by omega)
      have herr := ih ⟨r, hrrest, hrlen⟩
      simp [structuredRows, buildRow, hd', herr]

lemma askPollLoop_nc (o : AskOracle) (cid : String) (fuel i : Nat)
    (h : NC o.getMessage i) :
    askPollLoop o cid (fuel + 1) i =
      (.poll :: .sleep 5 :: (askPollLoop o cid fuel (i + 1)).1,
       (askPollLoop o cid fuel (i + 1)).2) := by
  obtain ⟨s, atts, hg, h1, h2, h3⟩ := h
  simp [askPollLoop, hg, h1, h2, h3]

lemma askPollLoop_reach (o : AskOracle) (cid : String) :
    ∀ (n m i : Nat), (∀ j, j < n → NC o.getMessage (i + j)) →
      askPollLoop o cid (n + m) i =
        ((List.replicate n [Event.poll, Event.sleep 5]).flatten ++ (askPollLoop o cid m (i + n)).1,
         (askPollLoop o cid m (i + n)).2) := by
  intro n
  induction n with
  | zero => intro m i _; simp
  | succ k ih =>
    intro m i h
    have harith : k + 1 + m = (k + m) + 1 := by omega
    rw [harith, askPollLoop_nc o cid (k + m) i (by simpa using h 0 (by omega))]
    have ihh := ih m (i + 1) (fun j hj => by
      have := h (j + 1) (by omega)
      have harith2 : i + (j + 1) = i + 1 + j := by omega
      rwa [harith2] at this)
    rw [ihh]
    have harith3 : i + 1 + k = i + (k + 1) := by omega
    rw [harith3]
    simp [List.replicate_succ]

lemma askPollLoop_terminal (o : AskOracle) (cid : String) (fuel i : Nat) (s : String)
    (atts : List Attachment)
    (hg : o.getMessage i = .ok ⟨none, some ⟨s, atts⟩⟩)
    (hs : s = "FAILED" ∨ s = "CANCELLED") :
    askPollLoop o cid (fuel + 1) i = ([.poll], .ok (.terminal s)) := by
  have h1 : s ≠ "COMPLETED" := by rcases hs with h | h <;> simp [h]
  simp [askPollLoop, hg, h1, hs]

lemma askPollLoop_completedStep (o : AskOracle) (cid : String) (fuel i : Nat)
    (atts : List Attachment)
    (hg : o.getMessage i = .ok ⟨none, some ⟨"COMPLETED", atts⟩⟩) :
    askPollLoop o cid (fuel + 1) i = ([.poll], completedAsk o cid ⟨"COMPLETED", atts⟩) := by
  simp [askPollLoop, hg]

lemma askGenie_eq_loop (cid mid : String) (st : Nat → String) (atts : Nat → List Attachment)
    (qr : Option String → Except PyExn (HttpResp QueryResultJson)) :
    askGenie (mkAskOracle cid mid st atts qr) =
      ((askPollLoop (mkAskOracle cid mid st atts qr) cid 60 0).1,
       catchOutcome (askPollLoop (mkAskOracle cid mid st atts qr) cid 60 0).2) := by
  rfl

lemma followPollLoop_nc (o : FollowOracle) (cid : String) (fuel i : Nat)
    (h : NC o.getMessage i) :
    followPollLoop o cid (fuel + 1) i =
      (.poll :: .sleep 5 :: (followPollLoop o cid fuel (i + 1)).1,
       (followPollLoop o cid fuel (i + 1)).2) := by
  obtain ⟨s, atts, hg, h1, h2, h3⟩ := h
  simp [followPollLoop, hg, h1, h2, h3]

lemma followPollLoop_reach (o : FollowOracle) (cid : String) :
    ∀ (n m i : Nat), (∀ j, j < n → NC o.getMessage (i + j)) →
      followPollLoop o cid (n + m) i =
        ((List.replicate n [Event.poll, Event.sleep 5]).flatten ++ (followPollLoop o cid m (i + n)).1,
         (followPollLoop o cid m (i + n)).2) := by
  intro n
  induction n with
  | zero => intro m i _; simp
  | succ k ih =>
    intro m i h
    have harith : k + 1 + m = (k + m) + 1 := by omega
    rw [harith, followPollLoop_nc o cid (k + m) i (by simpa using h 0 (by omega))]
    have ihh := ih m (i + 1) (fun j hj => by
      have := h (j + 1) (by omega)
      have harith2 : i + (j + 1) = i + 1 + j := by omega
      rwa [harith2] at this)
    rw [ihh]
    have harith3 : i + 1 + k = i + (k + 1) := by omega
    rw [harith3]
    simp [List.replicate_succ]

lemma followPollLoop_terminal (o : FollowOracle) (cid : String) (fuel i : Nat) (s : String)
    (atts : List Attachment)
    (hg : o.getMessage i = .ok ⟨none, some ⟨s, atts⟩⟩)
    (hs : s = "FAILED" ∨ s = "CANCELLED") :
    followPollLoop o cid (fuel + 1) i = ([.poll], .ok (.terminal s)) := by
  have h1 : s ≠ "COMPLETED" := by rcases hs with h | h <;> simp [h]
  simp [followPollLoop, hg, h1, hs]

lemma followPollLoop_completedStep (o : FollowOracle) (cid : String) (fuel i : Nat)
    (atts : List Attachment)
    (hg : o.getMessage i = .ok ⟨none, some ⟨"COMPLETED", atts⟩⟩) :
    followPollLoop o cid (fuel + 1) i = ([.poll], completedFollow o cid ⟨"COMPLETED", atts⟩) := by
  simp [followPollLoop, hg]

lemma followUp_eq_loop (cid mid : String) (st : Nat → String) (atts : Nat → List Attachment)
    (qr : Option String → Except PyExn (HttpResp QueryResultJson)) :
    followUp (mkFollowOracle mid st atts qr) cid =
      ((followPollLoop (mkFollowOracle mid st atts qr) cid 60 0).1,
       catchOutcome (followPollLoop (mkFollowOracle mid st atts qr) cid 60 0).2) := by
  rfl

lemma mkAskOracle_getMessage (cid mid : String) (st : Nat → String)
    (atts : Nat → List Attachment)
    (qr : Option String → Except PyExn (HttpResp QueryResultJson)) (i : Nat) :
    (mkAskOracle cid mid st atts qr).getMessage i = .ok ⟨none, some ⟨st i, atts i⟩⟩ := by
  rfl

lemma mkFollowOracle_getMessage (mid : String) (st : Nat → String)
    (atts : Nat → List Attachment)
    (qr : Option String → Except PyExn (HttpResp QueryResultJson)) (i : Nat) :
    (mkFollowOracle mid st atts qr).getMessage i = .ok ⟨none, some ⟨st i, atts i⟩⟩ := by
  rfl

lemma mk_NC (cid mid : String) (st : Nat → String) (atts : Nat → List Attachment)
    (qr : Option String → Except PyExn (HttpResp QueryResultJson)) (j : Nat)
    (h : st j ≠ "COMPLETED" ∧ st j ≠ "FAILED" ∧ st j ≠ "CANCELLED") :
    NC (mkAskOracle cid mid st atts qr).getMessage j ∧
      NC (mkFollowOracle mid st atts qr).getMessage j := by
  exact ⟨⟨st j, atts j, rfl, h.1, h.2.1, h.2.2⟩, ⟨st j, atts j, rfl, h.1, h.2.1, h.2.2⟩⟩

lemma completedAsk_cid (o : AskOracle) (cid : String) (md : MsgData) (out : Outcome)
    (h : completedAsk o cid md = .ok out) :
    cidOf out = none ∨ cidOf out = some cid := by
  unfold completedAsk at h
  split at h
  · simp at h
    subst h
    simp [cidOf]
  · split at h
    · simp at h
    · split at h
      · simp at h
      · split at h
        · simp at h
        · simp only [] at h
          split at h
          · simp at h
            subst h
            simp [cidOf]
          · split at h
            · simp at h
            · simp at h
              subst h
              simp [cidOf]

lemma completedFollow_cid (o : FollowOracle) (cid : String) (md : MsgData) (out : Outcome)
    (h : completedFollow o cid md = .ok out) :
    cidOf out = none ∨ cidOf out = some cid := by
  unfold completedFollow at h
  split at h
  · simp at h
    subst h
    simp [cidOf]
  · split at h
    · simp at h
    · split at h
      · simp at h
      · split at h
        · simp at h
        · simp only [] at h
          split at h
          · simp at h
            subst h
            simp [cidOf]
          · split at h
            · simp at h
            · simp at h
              subst h
              simp [cidOf]

lemma askPollLoop_cid (o : AskOracle) (cid : String) :
    ∀ (fuel i : Nat) (out : Outcome), (askPollLoop o cid fuel i).2 = .ok out →
      cidOf out = none ∨ cidOf out = some cid := by
  intro fuel
  induction fuel with
  | zero =>
    intro i out h
    simp [askPollLoop] at h
    subst h
    simp [cidOf]
  | succ k ih =>
    intro i out h
    cases hmi : o.getMessage i with
    | error e => simp [askPollLoop, hmi] at h
    | ok resp =>
      obtain ⟨he, hb⟩ := resp
      cases he with
      | some m => simp [askPollLoop, hmi] at h
      | none =>
        cases hb with
        | none => simp [askPollLoop, hmi] at h
        | some md =>
          by_cases hc : md.status = "COMPLETED"
          · simp [askPollLoop, hmi, hc] at h
            exact completedAsk_cid o cid md out h
          · by_cases ht : md.status = "FAILED" ∨ md.status = "CANCELLED"
            · simp [askPollLoop, hmi, hc, ht] at h
              subst h
              simp [cidOf]
            · simp [askPollLoop, hmi, hc, ht] at h
              exact ih (i + 1) out h

lemma followPollLoop_cid (o : FollowOracle) (cid : String) :
    ∀ (fuel i : Nat) (out : Outcome), (followPollLoop o cid fuel i).2 = .ok out →
      cidOf out = none ∨ cidOf out = some cid := by
  intro fuel
  induction fuel with
  | zero =>
    intro i out h
    simp [followPollLoop] at h
    subst h
    simp [cidOf]
  | succ k ih =>
    intro i out h
    cases hmi : o.getMessage i with
    | error e => simp [followPollLoop, hmi] at h
    | ok resp =>
      obtain ⟨he, hb⟩ := resp
      cases he with
      | some m => simp [followPollLoop, hmi] at h
      | none =>
        cases hb with
        | none => simp [followPollLoop, hmi] at h
        | some md =>
          by_cases hc : md.status = "COMPLETED"
          · simp [followPollLoop, hmi, hc] at h
            exact completedFollow_cid o cid md out h
          · by_cases ht : md.status = "FAILED" ∨ md.status = "CANCELLED"
            · simp [followPollLoop, hmi, hc, ht] at h
              subst h
              simp [cidOf]
            · simp [followPollLoop, hmi, hc, ht] at h
              exact ih (i + 1) out h

lemma completed_kind (ao : AskOracle) (fo : FollowOracle)
    (hq : ao.getQueryResult = fo.getQueryResult) (cid cid2 : String) (md : MsgData) :
    (catchOutcome (completedAsk ao cid md)).kind =
      (catchOutcome (completedFollow fo cid2 md)).kind := by
  obtain ⟨s, atts⟩ := md
  cases atts with
  | nil => rfl
  | cons a t =>
    simp only [completedAsk, completedFollow, hq]
    cases fo.getQueryResult a.attachment_id with
    | error e => rfl
    | ok resp =>
      obtain ⟨he, hb⟩ := resp
      cases he with
      | some m => rfl
      | none =>
        cases hb with
        | none => rfl
        | some rj =>
          by_cases hnd : schemaOf rj = [] ∨ rowsOf rj = []
          · simp [hnd]
          · simp only [hnd, if_false]
            cases structuredRows ((schemaOf rj).map (fun col => col.name)) (rowsOf rj) with
            | error e => rfl
            | ok sr => rfl

lemma pollLoop_kind (ao : AskOracle) (fo : FollowOracle)
    (hg : ao.getMessage = fo.getMessage) (hq : ao.getQueryResult = fo.getQueryResult)
    (cid cid2 : String) :
    ∀ (fuel i : Nat),
      (askPollLoop ao cid fuel i).1 = (followPollLoop fo cid2 fuel i).1 ∧
      (catchOutcome (askPollLoop ao cid fuel i).2).kind =
        (catchOutcome (followPollLoop fo cid2 fuel i).2).kind := by
  intro fuel
  induction fuel with
  | zero => intro i; exact ⟨rfl, rfl⟩
  | succ k ih =>
    intro i
    cases hmi : fo.getMessage i with
    | error e =>
      constructor
      · simp [askPollLoop, followPollLoop, hg, hmi]
      · simp [askPollLoop, followPollLoop, hg, hmi]
    | ok resp =>
      obtain ⟨he, hb⟩ := resp
      cases he with
      | some m =>
        constructor
        · simp [askPollLoop, followPollLoop, hg, hmi]
        · simp [askPollLoop, followPollLoop, hg, hmi]
      | none =>
        cases hb with
        | none =>
          constructor
          · simp [askPollLoop, followPollLoop, hg, hmi]
          · simp [askPollLoop, followPollLoop, hg, hmi]
        | some md =>
          by_cases hc : md.status = "COMPLETED"
          · constructor
            · simp [askPollLoop, followPollLoop, hg, hmi, hc]
            · simp only [askPollLoop, followPollLoop, hg, hmi, hc, if_true]
              exact completed_kind ao fo hq cid cid2 md
          · by_cases ht : md.status = "FAILED" ∨ md.status = "CANCELLED"
            · constructor
              · simp [askPollLoop, followPollLoop, hg, hmi, hc, ht]
              · simp [askPollLoop, followPollLoop, hg, hmi, hc, ht]
            · have hrec := ih (i + 1)
              constructor
              · simp [askPollLoop, followPollLoop, hg, hmi, hc, ht, hrec.1]
              · simp [askPollLoop, followPollLoop, hg, hmi, hc, ht, hrec.2]

lemma askGenie_timeout_run (cid mid : String) (st : Nat → String)
    (atts : Nat → List Attachment)
    (qr : Option String → Except PyExn (HttpResp QueryResultJson))
    (h : ∀ j, j < 60 → st j ≠ "COMPLETED" ∧ st j ≠ "FAILED" ∧ st j ≠ "CANCELLED") :
    askGenie (mkAskOracle cid mid st atts qr) =
      ((List.replicate 60 [Event.poll, Event.sleep 5]).flatten, .timeout cid) := by
  rw [askGenie_eq_loop]
  have hreach := askPollLoop_reach (mkAskOracle cid mid st atts qr) cid 60 0 0
    (fun j hj => by rw [Nat.zero_add]; exact (mk_NC cid mid st atts qr j (h j (by omega))).1)
  simp only [Nat.add_zero, Nat.zero_add] at hreach
  rw [hreach]
  simp [askPollLoop, catchOutcome]

lemma followUp_timeout_run (cid mid : String) (st : Nat → String)
    (atts : Nat → List Attachment)
    (qr : Option String → Except PyExn (HttpResp QueryResultJson))
    (h : ∀ j, j < 60 → st j ≠ "COMPLETED" ∧ st j ≠ "FAILED" ∧ st j ≠ "CANCELLED") :
    followUp (mkFollowOracle mid st atts qr) cid =
      ((List.replicate 60 [Event.poll, Event.sleep 5]).flatten, .timeout cid) := by
  rw [followUp_eq_loop]
  have hreach := followPollLoop_reach (mkFollowOracle mid st atts qr) cid 60 0 0
    (fun j hj => by rw [Nat.zero_add]; exact (mk_NC "" mid st atts qr j (h j (by omega))).2)
  simp only [Nat.add_zero, Nat.zero_add] at hreach
  rw [hreach]
  simp [followPollLoop, catchOutcome]

lemma askGenie_terminal_run (cid mid : String) (st : Nat → String)
    (atts : Nat → List Attachment)
    (qr : Option String → Except PyExn (HttpResp QueryResultJson)) (n : Nat) (hn : n < 60)
    (hb : ∀ j, j < n → st j ≠ "COMPLETED" ∧ st j ≠ "FAILED" ∧ st j ≠ "CANCELLED")
    (ht : st n = "FAILED" ∨ st n = "CANCELLED") :
    askGenie (mkAskOracle cid mid st atts qr) =
      ((List.replicate n [Event.poll, Event.sleep 5]).flatten ++ [Event.poll],
       .terminal (st n)) := by
  rw [askGenie_eq_loop]
  obtain ⟨m, hm⟩ : ∃ m, (60 : Nat) = n + (m + 1) := ⟨60 - n - 1, by omega⟩
  rw [hm]
  rw [askPollLoop_reach (mkAskOracle cid mid st atts qr) cid n (m + 1) 0
    (fun j hj => by rw [Nat.zero_add]; exact (mk_NC cid mid st atts qr j (hb j hj)).1)]
  rw [Nat.zero_add]
  rw [askPollLoop_terminal (mkAskOracle cid mid st atts qr) cid m n (st n) (atts n)
    (mkAskOracle_getMessage cid mid st atts qr n) ht]
  simp [catchOutcome]

lemma followUp_terminal_run (cid mid : String) (st : Nat → String)
    (atts : Nat → List Attachment)
    (qr : Option String → Except PyExn (HttpResp QueryResultJson)) (n : Nat) (hn : n < 60)
    (hb : ∀ j, j < n → st j ≠ "COMPLETED" ∧ st j ≠ "FAILED" ∧ st j ≠ "CANCELLED")
    (ht : st n = "FAILED" ∨ st n = "CANCELLED") :
    followUp (mkFollowOracle mid st atts qr) cid =
      ((List.replicate n [Event.poll, Event.sleep 5]).flatten ++ [Event.poll],
       .terminal (st n)) := by
  rw [followUp_eq_loop]
  obtain ⟨m, hm⟩ : ∃ m, (60 : Nat) = n + (m + 1) := ⟨60 - n - 1, by omega⟩
  rw [hm]
  rw [followPollLoop_reach (mkFollowOracle mid st atts qr) cid n (m + 1) 0
    (fun j hj => by rw [Nat.zero_add]; exact (mk_NC "" mid st atts qr j (hb j hj)).2)]
  rw [Nat.zero_add]
  rw [followPollLoop_terminal (mkFollowOracle mid st atts qr) cid m n (st n) (atts n)
    (mkFollowOracle_getMessage mid st atts qr n) ht]
  simp [catchOutcome]

lemma askGenie_completed_run (cid mid : String) (st : Nat → String)
    (atts : Nat → List Attachment)
    (qr : Option String → Except PyExn (HttpResp QueryResultJson)) (n : Nat) (hn : n < 60)
    (hb : ∀ j, j < n → st j ≠ "COMPLETED" ∧ st j ≠ "FAILED" ∧ st j ≠ "CANCELLED")
    (hc : st n = "COMPLETED") :
    askGenie (mkAskOracle cid mid st atts qr) =
      ((List.replicate n [Event.poll, Event.sleep 5]).flatten ++ [Event.poll],
       catchOutcome (completedAsk (mkAskOracle cid mid st atts qr) cid
         ⟨"COMPLETED", atts n⟩)) := by
  rw [askGenie_eq_loop]
  obtain ⟨m, hm⟩ : ∃ m, (60 : Nat) = n + (m + 1) := ⟨60 - n - 1, by omega⟩
  rw [hm]
  rw [askPollLoop_reach (mkAskOracle cid mid st atts qr) cid n (m + 1) 0
    (fun j hj => by rw [Nat.zero_add]; exact (mk_NC cid mid st atts qr j (hb j hj)).1)]
  rw [Nat.zero_add]
  rw [askPollLoop_completedStep (mkAskOracle cid mid st atts qr) cid m n (atts n)
    (by rw [mkAskOracle_getMessage, hc])]

lemma followUp_completed_run (cid mid : String) (st : Nat → String)
    (atts : Nat → List Attachment)
    (qr : Option String → Except PyExn (HttpResp QueryResultJson)) (n : Nat) (hn : n < 60)
    (hb : ∀ j, j < n → st j ≠ "COMPLETED" ∧ st j ≠ "FAILED" ∧ st j ≠ "CANCELLED")
    (hc : st n = "COMPLETED") :
    followUp (mkFollowOracle mid st atts qr) cid =
      ((List.replicate n [Event.poll, Event.sleep 5]).flatten ++ [Event.poll],
       catchOutcome (completedFollow (mkFollowOracle mid st atts qr) cid
         ⟨"COMPLETED", atts n⟩)) := by
  rw [followUp_eq_loop]
  obtain ⟨m, hm⟩ : ∃ m, (60 : Nat) = n + (m + 1) := ⟨60 - n - 1, by omega⟩
  rw [hm]
  rw [followPollLoop_reach (mkFollowOracle mid st atts qr) cid n (m + 1) 0
    (fun j hj => by rw [Nat.zero_add]; exact (mk_NC "" mid st atts qr j (hb j hj)).2)]
  rw [Nat.zero_add]
  rw [followPollLoop_completedStep (mkFollowOracle mid st atts qr) cid m n (atts n)
    (by rw [mkFollowOracle_getMessage, hc])]

lemma completedAsk_noAtts (o : AskOracle) (cid : String) :
    completedAsk o cid ⟨"COMPLETED", []⟩ = .ok .completedNoData := rfl

lemma completedFollow_noAtts (o : FollowOracle) (cid : String) :
    completedFollow o cid ⟨"COMPLETED", []⟩ = .ok .completedNoData := rfl

lemma completedAsk_noData (o : AskOracle) (cid : String) (a : Attachment)
    (t : List Attachment) (rj : QueryResultJson)
    (hqr : o.getQueryResult a.attachment_id = cleanHttp rj)
    (hnd : schemaOf rj = [] ∨ rowsOf rj = []) :
    completedAsk o cid ⟨"COMPLETED", a :: t⟩ =
      .ok (.noData (a.query.getD "No SQL.") (a.text.getD "No text.")) := by
  simp [completedAsk, hqr, cleanHttp, hnd]

lemma completedFollow_noData (o : FollowOracle) (cid : String) (a : Attachment)
    (t : List Attachment) (rj : QueryResultJson)
    (hqr : o.getQueryResult a.attachment_id = cleanHttp rj)
    (hnd : schemaOf rj = [] ∨ rowsOf rj = []) :
    completedFollow o cid ⟨"COMPLETED", a :: t⟩ =
      .ok (.noData (a.query.getD "No SQL.") (a.text.getD "No text.")) := by
  simp [completedFollow, hqr, cleanHttp, hnd]

lemma completedAsk_success (o : AskOracle) (cid : String) (a : Attachment)
    (t : List Attachment) (rj : QueryResultJson)
    (hqr : o.getQueryResult a.attachment_id = cleanHttp rj)
    (hs : schemaOf rj ≠ []) (hr : rowsOf rj ≠ [])
    (hrect : ∀ r ∈ rowsOf rj, r.length = (schemaOf rj).length)
    (hnodup : ((schemaOf rj).map (fun col => col.name)).Nodup) :
    completedAsk o cid ⟨"COMPLETED", a :: t⟩ =
      .ok (.success (a.text.getD "No text.") (a.query.getD "No SQL.")
        ⟨(schemaOf rj).map (fun col => col.name),
         (rowsOf rj).map (fun r =>
           ((schemaOf rj).map (fun col => col.name)).zip (r.map cellStr))⟩ cid) := by
  have hsr := structuredRows_zip ((schemaOf rj).map (fun col => col.name)) (rowsOf rj)
    (by intro r hr2; simp [hrect r hr2]) hnodup
  simp [completedAsk, hqr, cleanHttp, hs, hr, hsr]

lemma completedFollow_success (o : FollowOracle) (cid : String) (a : Attachment)
    (t : List Attachment) (rj : QueryResultJson)
    (hqr : o.getQueryResult a.attachment_id = cleanHttp rj)
    (hs : schemaOf rj ≠ []) (hr : rowsOf rj ≠ [])
    (hrect : ∀ r ∈ rowsOf rj, r.length = (schemaOf rj).length)
    (hnodup : ((schemaOf rj).map (fun col => col.name)).Nodup) :
    completedFollow o cid ⟨"COMPLETED", a :: t⟩ =
      .ok (.success (a.text.getD "No text.") (a.query.getD "No SQL.")
        ⟨(schemaOf rj).map (fun col => col.name),
         (rowsOf rj).map (fun r =>
           ((schemaOf rj).map (fun col => col.name)).zip (r.map cellStr))⟩ cid) := by
  have hsr := structuredRows_zip ((schemaOf rj).map (fun col => col.name)) (rowsOf rj)
    (by intro r hr2; simp [hrect r hr2]) hnodup
  simp [completedFollow, hqr, cleanHttp, hs, hr, hsr]

lemma completedAsk_indexErr (o : AskOracle) (cid : String) (a : Attachment)
    (t : List Attachment) (rj : QueryResultJson)
    (hqr : o.getQueryResult a.attachment_id = cleanHttp rj)
    (hs : schemaOf rj ≠ [])
    (hbad : ∃ r ∈ rowsOf rj, (schemaOf rj).length < r.length) :
    completedAsk o cid ⟨"COMPLETED", a :: t⟩ = .error .indexError := by
  have hr : rowsOf rj ≠ [] := by
    obtain ⟨r, hrm, _⟩ := hbad
    exact List.ne_nil_of_mem hrm
  have herr := structuredRows_err ((schemaOf rj).map (fun col => col.name)) (rowsOf rj)
    (by obtain ⟨r, hrm, hlen⟩ := hbad; exact ⟨r, hrm, by simpa using hlen⟩)
  simp [completedAsk, hqr, cleanHttp, hs, hr, herr]

lemma completedFollow_indexErr (o : FollowOracle) (cid : String) (a : Attachment)
    (t : List Attachment) (rj : QueryResultJson)
    (hqr : o.getQueryResult a.attachment_id = cleanHttp rj)
    (hs : schemaOf rj ≠ [])
    (hbad : ∃ r ∈ rowsOf rj, (schemaOf rj).length < r.length) :
    completedFollow o cid ⟨"COMPLETED", a :: t⟩ = .error .indexError := by
  have hr : rowsOf rj ≠ [] := by
    obtain ⟨r, hrm, _⟩ := hbad
    exact List.ne_nil_of_mem hrm
  have herr := structuredRows_err ((schemaOf rj).map (fun col => col.name)) (rowsOf rj)
    (by obtain ⟨r, hrm, hlen⟩ := hbad; exact ⟨r, hrm, by simpa using hlen⟩)
  simp [completedFollow, hqr, cleanHttp, hs, hr, herr]

lemma completedAsk_firstOnly (o : AskOracle) (cid : String) (a1 a2 : Attachment)
    (t1 t2 : List Attachment)
    (hid : a1.attachment_id = a2.attachment_id)
    (htext : a1.text.getD "No text." = a2.text.getD "No text.")
    (hquery : a1.query.getD "No SQL." = a2.query.getD "No SQL.") :
    completedAsk o cid ⟨"COMPLETED", a1 :: t1⟩ = completedAsk o cid ⟨"COMPLETED", a2 :: t2⟩ := by
  simp only [completedAsk]
  rw [hid, htext, hquery]

lemma completedFollow_firstOnly (o : FollowOracle) (cid : String) (a1 a2 : Attachment)
    (t1 t2 : List Attachment)
    (hid : a1.attachment_id = a2.attachment_id)
    (htext : a1.text.getD "No text." = a2.text.getD "No text.")
    (hquery : a1.query.getD "No SQL." = a2.query.getD "No SQL.") :
    completedFollow o cid ⟨"COMPLETED", a1 :: t1⟩ =
      completedFollow o cid ⟨"COMPLETED", a2 :: t2⟩ := by
  simp only [completedFollow]
  rw [hid, htext, hquery]

lemma formatMeta_ne (sid t d : String) : formatMeta sid t d ≠ incompleteMetaMsg := by
  intro h
  have h2 : (formatMeta sid t d).data.head? = (incompleteMetaMsg).data.head? := by rw [h]
  simp [formatMeta, String.data_append] at h2
  revert h2
  decide

lemma count_poll_flatten (n : Nat) :
    ((List.replicate n [Event.poll, Event.sleep 5]).flatten).count Event.poll = n := by
  induction n with
  | zero => rfl
  | succ k ih => simp [List.replicate_succ, List.count_append, ih]

/-- C1: for every remote service whose get-message responses are well-formed
and never carry a terminal status (COMPLETED, FAILED or CANCELLED), both
`ask_genie` and `follow_up` perform exactly 60 poll attempts (never a 61st),
with one 5-unit sleep after each check, and then return the timeout outcome
carrying the conversation id, an outcome distinct from the hard-failure
outcomes. -/
theorem C1_timeout_after_sixty_polls (cid mid cid2 mid2 : String) (st : Nat → String)
    (atts : Nat → List Attachment)
    (qr : Option String → Except PyExn (HttpResp QueryResultJson))
    (h : ∀ j, st j ≠ "COMPLETED" ∧ st j ≠ "FAILED" ∧ st j ≠ "CANCELLED") :
    askGenie (mkAskOracle cid mid st atts qr) =
      ((List.replicate 60 [Event.poll, Event.sleep 5]).flatten, .timeout cid) ∧
    followUp (mkFollowOracle mid2 st atts qr) cid2 =
      ((List.replicate 60 [Event.poll, Event.sleep 5]).flatten, .timeout cid2) ∧
    ((List.replicate 60 [Event.poll, Event.sleep 5]).flatten).count Event.poll = 60 ∧
    (∀ m, Outcome.timeout cid ≠ Outcome.error m) ∧
    (∀ s, Outcome.timeout cid ≠ Outcome.terminal s) := by
  refine ⟨askGenie_timeout_run cid mid st atts qr (fun j _ => h j),
    followUp_timeout_run cid2 mid2 st atts qr (fun j _ => h j),
    count_poll_flatten 60, ?_, ?_⟩
  · intro m
    simp
  · intro s
    simp

/-- Witness for C1 at the constant PENDING status stream. -/
theorem C1_witness :
    askGenie (mkAskOracle "c1" "m1" (fun _ => "PENDING") (fun _ => [])
        (fun _ => cleanHttp ⟨none⟩)) =
      ((List.replicate 60 [Event.poll, Event.sleep 5]).flatten, .timeout "c1") ∧
    followUp (mkFollowOracle "m2" (fun _ => "PENDING") (fun _ => [])
        (fun _ => cleanHttp ⟨none⟩)) "c2" =
      ((List.replicate 60 [Event.poll, Event.sleep 5]).flatten, .timeout "c2") := by
  have h := C1_timeout_after_sixty_polls "c1" "m1" "c2" "m2" (fun _ => "PENDING")
    (fun _ => []) (fun _ => cleanHttp ⟨none⟩)
    (fun _ => ⟨(by decide : "PENDING" ≠ "COMPLETED"), (by decide : "PENDING" ≠ "FAILED"),
      (by decide : "PENDING" ≠ "CANCELLED")⟩)
  exact ⟨h.1, h.2.1⟩

/-- C2: if a poll observes status FAILED or CANCELLED (after only
non-terminal well-formed polls), both operations return the terminal-failure
outcome naming that status immediately: the trace ends with that poll and
contains exactly n+1 polls. -/
theorem C2_terminal_stops_polling (cid mid cid2 mid2 : String) (st : Nat → String)
    (atts : Nat → List Attachment)
    (qr : Option String → Except PyExn (HttpResp QueryResultJson)) (n : Nat) (hn : n < 60)
    (hb : ∀ j, j < n → st j ≠ "COMPLETED" ∧ st j ≠ "FAILED" ∧ st j ≠ "CANCELLED")
    (ht : st n = "FAILED" ∨ st n = "CANCELLED") :
    askGenie (mkAskOracle cid mid st atts qr) =
      ((List.replicate n [Event.poll, Event.sleep 5]).flatten ++ [Event.poll],
       .terminal (st n)) ∧
    followUp (mkFollowOracle mid2 st atts qr) cid2 =
      ((List.replicate n [Event.poll, Event.sleep 5]).flatten ++ [Event.poll],
       .terminal (st n)) ∧
    ((List.replicate n [Event.poll, Event.sleep 5]).flatten ++ [Event.poll]).count
        Event.poll = n + 1 := by
  refine ⟨askGenie_terminal_run cid mid st atts qr n hn hb ht,
    followUp_terminal_run cid2 mid2 st atts qr n hn hb ht, ?_⟩
  simp [List.count_append, count_poll_flatten]

/-- Witness for C2: FAILED on the very first poll, a single poll event. -/
theorem C2_witness :
    askGenie (mkAskOracle "c1" "m1" (fun _ => "FAILED") (fun _ => [])
        (fun _ => cleanHttp ⟨none⟩)) = ([Event.poll], .terminal "FAILED") ∧
    followUp (mkFollowOracle "m2" (fun _ => "FAILED") (fun _ => [])
        (fun _ => cleanHttp ⟨none⟩)) "c2" = ([Event.poll], .terminal "FAILED") := by
  have h := C2_terminal_stops_polling "c1" "m1" "c2" "m2" (fun _ => "FAILED")
    (fun _ => []) (fun _ => cleanHttp ⟨none⟩) 0 (by decide)
    (fun j hj => absurd hj (by omega)) (by decide)
  exact ⟨by simpa using h.1, by simpa using h.2.1⟩

/-- C4: on a COMPLETED poll, an empty attachment list yields the
completed-no-result outcome (not the error outcome); a first attachment
whose fetched result has empty or absent schema or rows yields the partial
no-data outcome carrying the defaulted query string and explanatory text. -/
theorem C4_completed_empty_cases (cid mid cid2 mid2 : String) (st : Nat → String)
    (atts : Nat → List Attachment)
    (qr : Option String → Except PyExn (HttpResp QueryResultJson)) (n : Nat) (hn : n < 60)
    (hb : ∀ j, j < n → st j ≠ "COMPLETED" ∧ st j ≠ "FAILED" ∧ st j ≠ "CANCELLED")
    (hc : st n = "COMPLETED") :
    (atts n = [] →
      (askGenie (mkAskOracle cid mid st atts qr)).2 = .completedNoData ∧
      (followUp (mkFollowOracle mid2 st atts qr) cid2).2 = .completedNoData ∧
      (∀ m, Outcome.completedNoData ≠ Outcome.error m)) ∧
    (∀ (a : Attachment) (t : List Attachment) (rj : QueryResultJson),
      atts n = a :: t →
      qr a.attachment_id = cleanHttp rj →
      (schemaOf rj = [] ∨ rowsOf rj = []) →
      (askGenie (mkAskOracle cid mid st atts qr)).2 =
        .noData (a.query.getD "No SQL.") (a.text.getD "No text.") ∧
      (followUp (mkFollowOracle mid2 st atts qr) cid2).2 =
        .noData (a.query.getD "No SQL.") (a.text.getD "No text.")) := by
  have ha := askGenie_completed_run cid mid st atts qr n hn hb hc
  have hf := followUp_completed_run cid2 mid2 st atts qr n hn hb hc
  constructor
  · intro hatts
    rw [hatts] at ha hf
    refine ⟨?_, ?_, ?_⟩
    · rw [ha, completedAsk_noAtts]
      rfl
    · rw [hf, completedFollow_noAtts]
      rfl
    · intro m
      simp
  · intro a t rj hatts hqr hnd
    rw [hatts] at ha hf
    constructor
    · rw [ha, completedAsk_noData _ cid a t rj hqr hnd]
      rfl
    · rw [hf, completedFollow_noData _ cid2 a t rj hqr hnd]
      rfl

/-- Witness for C4: COMPLETED on the first poll with no attachments, and a
run with one attachment whose fetched result has empty schema and rows. -/
theorem C4_witness :
    (askGenie (mkAskOracle "c1" "m1" (fun _ => "COMPLETED") (fun _ => [])
        (fun _ => cleanHttp ⟨none⟩))).2 = .completedNoData ∧
    (askGenie (mkAskOracle "c1" "m1" (fun _ => "COMPLETED")
        (fun _ => [⟨some "at1", none, none⟩])
        (fun _ => cleanHttp ⟨none⟩))).2 = .noData "No SQL." "No text." := by
  constructor
  · exact ((C4_completed_empty_cases "c1" "m1" "c2" "m2" (fun _ => "COMPLETED")
      (fun _ => []) (fun _ => cleanHttp ⟨none⟩) 0 (by decide)
      (fun j hj => absurd hj (by omega)) rfl).1 rfl).1
  · exact ((C4_completed_empty_cases "c1" "m1" "c2" "m2" (fun _ => "COMPLETED")
      (fun _ => [⟨some "at1", none, none⟩]) (fun _ => cleanHttp ⟨none⟩) 0 (by decide)
      (fun j hj => absurd hj (by omega)) rfl).2 ⟨some "at1", none, none⟩ [] ⟨none⟩
      rfl rfl (by simp [schemaOf])).1

/-- C3 as frozen is falsified by the code on three concrete COMPLETED runs
with non-empty schema and non-empty rows: (1) a row shorter than the schema
produces a success table whose row dict lacks the header of the missing
column, so not every header is mapped; (2) duplicate column names make the
row dict map the repeated header to the value of the last duplicate
position, not the value at each column's position; (3) a row longer than
the schema yields the generic error outcome, so no success outcome exists
at all. -/
theorem C3_counterexample :
    ((askGenie (mkAskOracle "c1" "m1" (fun _ => "COMPLETED")
        (fun _ => [⟨some "at1", none, none⟩])
        (fun _ => cleanHttp ⟨some ⟨some ⟨some ⟨some [⟨"a"⟩, ⟨"b"⟩]⟩⟩,
          some ⟨some [[some "1"]]⟩⟩⟩))).2 =
      .success "No text." "No SQL." ⟨["a", "b"], [[("a", "1")]]⟩ "c1" ∧
      List.lookup "b" [("a", "1")] = none) ∧
    ((askGenie (mkAskOracle "c1" "m1" (fun _ => "COMPLETED")
        (fun _ => [⟨some "at1", none, none⟩])
        (fun _ => cleanHttp ⟨some ⟨some ⟨some ⟨some [⟨"a"⟩, ⟨"a"⟩]⟩⟩,
          some ⟨some [[some "1", some "2"]]⟩⟩⟩))).2 =
      .success "No text." "No SQL." ⟨["a", "a"], [[("a", "2")]]⟩ "c1") ∧
    ((askGenie (mkAskOracle "c1" "m1" (fun _ => "COMPLETED")
        (fun _ => [⟨some "at1", none, none⟩])
        (fun _ => cleanHttp ⟨some ⟨some ⟨some ⟨some [⟨"a"⟩]⟩⟩,
          some ⟨some [[some "1", some "2"]]⟩⟩⟩))).2 =
      .error "list index out of range") := by
  exact ⟨⟨by decide, by decide⟩, by decide, by decide⟩

/-- C3 (amended): on a COMPLETED poll whose first attachment's fetched
result has a non-empty schema and non-empty rows, provided every row has
exactly as many cells as the schema has columns and the column names are
pairwise distinct, both operations return the success outcome whose table
headers are the column names in schema order and whose rows, in source
order, pair each header with the stringified cell at that column's position
(null cells becoming the sentinel string NULL). -/
theorem C3_success_table (cid mid cid2 mid2 : String) (st : Nat → String)
    (atts : Nat → List Attachment)
    (qr : Option String → Except PyExn (HttpResp QueryResultJson)) (n : Nat) (hn : n < 60)
    (hb : ∀ j, j < n → st j ≠ "COMPLETED" ∧ st j ≠ "FAILED" ∧ st j ≠ "CANCELLED")
    (hc : st n = "COMPLETED") (a : Attachment) (t : List Attachment) (rj : QueryResultJson)
    (hatts : atts n = a :: t)
    (hqr : qr a.attachment_id = cleanHttp rj)
    (hs : schemaOf rj ≠ []) (hr : rowsOf rj ≠ [])
    (hrect : ∀ r ∈ rowsOf rj, r.length = (schemaOf rj).length)
    (hnodup : ((schemaOf rj).map (fun col => col.name)).Nodup) :
    (askGenie (mkAskOracle cid mid st atts qr)).2 =
      .success (a.text.getD "No text.") (a.query.getD "No SQL.")
        ⟨(schemaOf rj).map (fun col => col.name),
         (rowsOf rj).map (fun r =>
           ((schemaOf rj).map (fun col => col.name)).zip (r.map cellStr))⟩ cid ∧
    (followUp (mkFollowOracle mid2 st atts qr) cid2).2 =
      .success (a.text.getD "No text.") (a.query.getD "No SQL.")
        ⟨(schemaOf rj).map (fun col => col.name),
         (rowsOf rj).map (fun r =>
           ((schemaOf rj).map (fun col => col.name)).zip (r.map cellStr))⟩ cid2 := by
  have ha := askGenie_completed_run cid mid st atts qr n hn hb hc
  have hf := followUp_completed_run cid2 mid2 st atts qr n hn hb hc
  rw [hatts] at ha hf
  constructor
  · rw [ha, completedAsk_success _ cid a t rj hqr hs hr hrect hnodup]
    rfl
  · rw [hf, completedFollow_success _ cid2 a t rj hqr hs hr hrect hnodup]
    rfl

/-- Witness for the amended C3: two columns, two rows with a null cell. -/
theorem C3_witness :
    (askGenie (mkAskOracle "c1" "m1" (fun _ => "COMPLETED")
        (fun _ => [⟨some "at1", none, none⟩])
        (fun _ => cleanHttp ⟨some ⟨some ⟨some ⟨some [⟨"a"⟩, ⟨"b"⟩]⟩⟩,
          some ⟨some [[some "1", none], [some "3", some "4"]]⟩⟩⟩))).2 =
      .success "No text." "No SQL."
        ⟨["a", "b"], [[("a", "1"), ("b", "NULL")], [("a", "3"), ("b", "4")]]⟩ "c1" := by
  have h := C3_success_table "c1" "m1" "c2" "m2" (fun _ => "COMPLETED")
    (fun _ => [⟨some "at1", none, none⟩])
    (fun _ => cleanHttp ⟨some ⟨some ⟨some ⟨some [⟨"a"⟩, ⟨"b"⟩]⟩⟩,
      some ⟨some [[some "1", none], [some "3", some "4"]]⟩⟩⟩) 0 (by decide)
    (fun j hj => absurd hj (by omega)) rfl ⟨some "at1", none, none⟩ []
    ⟨some ⟨some ⟨some ⟨some [⟨"a"⟩, ⟨"b"⟩]⟩⟩, some ⟨some [[some "1", none], [some "3", some "4"]]⟩⟩⟩
    rfl rfl (by decide) (by decide) (by decide) (by decide)
  simpa using h.1

/-- C10: on a COMPLETED poll with a non-empty schema, if any fetched row
has more cells than the schema has columns, the per-row header indexing
raises IndexError, the catch-all absorbs it, and both operations return the
generic error outcome for that exception; no success outcome (hence no
partially built table) is returned. -/
theorem C10_misaligned_row_aborts (cid mid cid2 mid2 : String) (st : Nat → String)
    (atts : Nat → List Attachment)
    (qr : Option String → Except PyExn (HttpResp QueryResultJson)) (n : Nat) (hn : n < 60)
    (hb : ∀ j, j < n → st j ≠ "COMPLETED" ∧ st j ≠ "FAILED" ∧ st j ≠ "CANCELLED")
    (hc : st n = "COMPLETED") (a : Attachment) (t : List Attachment) (rj : QueryResultJson)
    (hatts : atts n = a :: t)
    (hqr : qr a.attachment_id = cleanHttp rj)
    (hs : schemaOf rj ≠ [])
    (hbad : ∃ r ∈ rowsOf rj, (schemaOf rj).length < r.length) :
    (askGenie (mkAskOracle cid mid st atts qr)).2 = .error "list index out of range" ∧
    (followUp (mkFollowOracle mid2 st atts qr) cid2).2 = .error "list index out of range" ∧
    (∀ text sql tab c, (askGenie (mkAskOracle cid mid st atts qr)).2 ≠
      .success text sql tab c) ∧
    (∀ text sql tab c, (followUp (mkFollowOracle mid2 st atts qr) cid2).2 ≠
      .success text sql tab c) := by
  have ha := askGenie_completed_run cid mid st atts qr n hn hb hc
  have hf := followUp_completed_run cid2 mid2 st atts qr n hn hb hc
  rw [hatts] at ha hf
  have e1 : (askGenie (mkAskOracle cid mid st atts qr)).2 = .error "list index out of range" := by
    rw [ha, completedAsk_indexErr _ cid a t rj hqr hs hbad]
    rfl
  have e2 : (followUp (mkFollowOracle mid2 st atts qr) cid2).2 =
      .error "list index out of range" := by
    rw [hf, completedFollow_indexErr _ cid2 a t rj hqr hs hbad]
    rfl
  refine ⟨e1, e2, ?_, ?_⟩
  · intro text sql tab c
    rw [e1]
    simp
  · intro text sql tab c
    rw [e2]
    simp

/-- Witness for C10: one column, one row with two cells. -/
theorem C10_witness :
    (askGenie (mkAskOracle "c1" "m1" (fun _ => "COMPLETED")
        (fun _ => [⟨some "at1", none, none⟩])
        (fun _ => cleanHttp ⟨some ⟨some ⟨some ⟨some [⟨"a"⟩]⟩⟩,
          some ⟨some [[some "1", some "2"]]⟩⟩⟩))).2 = .error "list index out of range" ∧
    (followUp (mkFollowOracle "m2" (fun _ => "COMPLETED")
        (fun _ => [⟨some "at1", none, none⟩])
        (fun _ => cleanHttp ⟨some ⟨some ⟨some ⟨some [⟨"a"⟩]⟩⟩,
          some ⟨some [[some "1", some "2"]]⟩⟩⟩)) "c2").2 = .error "list index out of range" := by
  have h := C10_misaligned_row_aborts "c1" "m1" "c2" "m2" (fun _ => "COMPLETED")
    (fun _ => [⟨some "at1", none, none⟩])
    (fun _ => cleanHttp ⟨some ⟨some ⟨some ⟨some [⟨"a"⟩]⟩⟩, some ⟨some [[some "1", some "2"]]⟩⟩⟩)
    0 (by decide) (fun j hj => absurd hj (by omega)) rfl ⟨some "at1", none, none⟩ []
    ⟨some ⟨some ⟨some ⟨some [⟨"a"⟩]⟩⟩, some ⟨some [[some "1", some "2"]]⟩⟩⟩ rfl rfl
    (by decide) ⟨[some "1", some "2"], by decide, by decide⟩
  exact ⟨h.1, h.2.1⟩

/-- C5: under every modelled behaviour of the remote service — raised
transport or timeout exceptions, HTTP error statuses, unparsable bodies,
and the index error of result formatting — each exposed operation returns a
value to its caller; the exception boundary never lets an exception
propagate. -/
theorem C5_never_raises (ao : AskOracle) (fo : FollowOracle) (c : String) (mo : MetaOracle) :
    (∃ out, askGenieE ao = Except.ok out) ∧
    (∃ out, followUpE fo c = Except.ok out) ∧
    (∃ s, getSpaceInfoE mo = Except.ok s) := by
  refine ⟨?_, ?_, ?_⟩
  · cases h : (askGenieBody ao).2 with
    | error e => exact ⟨.error (exnStr e), by simp [askGenieE, h]⟩
    | ok out => exact ⟨out, by simp [askGenieE, h]⟩
  · cases h : (followUpBody fo c).2 with
    | error e => exact ⟨.error (exnStr e), by simp [followUpE, h]⟩
    | ok out => exact ⟨out, by simp [followUpE, h]⟩
  · cases h : metadataBody mo with
    | error e => exact ⟨metadataHandler e, by simp [getSpaceInfoE, getGenieSpaceMetadataE, h]⟩
    | ok s => exact ⟨s, by simp [getSpaceInfoE, getGenieSpaceMetadataE, h]⟩

lemma followUpBody_cid (fo : FollowOracle) (c : String) (out : Outcome)
    (h : (followUpBody fo c).2 = .ok out) :
    cidOf out = none ∨ cidOf out = some c := by
  unfold followUpBody at h
  split at h
  · simp at h
  · split at h
    · simp at h
    · split at h
      · simp at h
      · exact followPollLoop_cid fo c 60 0 out h

/-- C6: every outcome of `follow_up` that carries a conversation id carries
the caller-supplied one unchanged; every outcome of `ask_genie` that
carries a conversation id carries the id of the submit response, and that
id fed into a subsequent `follow_up` call is again the id any id-carrying
outcome of that call reports. -/
theorem C6_conversation_id (o : AskOracle) (cid0 mid0 : String)
    (hsubmit : o.startConversation = .ok ⟨none, some ⟨⟨cid0⟩, ⟨mid0⟩⟩⟩) :
    (cidOf (askGenie o).2 = none ∨ cidOf (askGenie o).2 = some cid0) ∧
    (∀ (fo : FollowOracle) (c : String),
      cidOf (followUp fo c).2 = none ∨ cidOf (followUp fo c).2 = some c) ∧
    (∀ (fo : FollowOracle) (c : String), cidOf (askGenie o).2 = some c →
      (cidOf (followUp fo c).2 = none ∨ cidOf (followUp fo c).2 = some c)) := by
  have hfollow : ∀ (fo : FollowOracle) (c : String),
      cidOf (followUp fo c).2 = none ∨ cidOf (followUp fo c).2 = some c := by
    intro fo c
    have heq : (followUp fo c).2 = catchOutcome (followUpBody fo c).2 := rfl
    rw [heq]
    cases h : (followUpBody fo c).2 with
    | error e => simp [catchOutcome, cidOf]
    | ok out =>
      have := followUpBody_cid fo c out h
      simpa [catchOutcome] using this
  refine ⟨?_, hfollow, fun fo c _ => hfollow fo c⟩
  have hbody : askGenieBody o = askPollLoop o cid0 60 0 := by
    simp [askGenieBody, hsubmit]
  have heq : (askGenie o).2 = catchOutcome (askPollLoop o cid0 60 0).2 := by
    simp [askGenie, hbody]
  rw [heq]
  cases h : (askPollLoop o cid0 60 0).2 with
  | error e => simp [catchOutcome, cidOf]
  | ok out =>
    have := askPollLoop_cid o cid0 60 0 out h
    simpa [catchOutcome] using this

/-- Witness for C6: a submit yielding conversation id c1 and an all-PENDING
poll stream; the timeout outcomes carry exactly the submit id and the
supplied id respectively. -/
theorem C6_witness :
    cidOf (askGenie (mkAskOracle "c1" "m1" (fun _ => "PENDING") (fun _ => [])
      (fun _ => cleanHttp ⟨none⟩))).2 = some "c1" ∧
    cidOf (followUp (mkFollowOracle "m2" (fun _ => "PENDING") (fun _ => [])
      (fun _ => cleanHttp ⟨none⟩)) "c9").2 = some "c9" := by
  have h := C6_conversation_id (mkAskOracle "c1" "m1" (fun _ => "PENDING") (fun _ => [])
    (fun _ => cleanHttp ⟨none⟩)) "c1" "m1" rfl
  constructor
  · rcases h.1 with h1 | h1
    · exact absurd h1 (by decide)
    · exact h1
  · rcases h.2.1 (mkFollowOracle "m2" (fun _ => "PENDING") (fun _ => [])
      (fun _ => cleanHttp ⟨none⟩)) "c9" with h2 | h2
    · exact absurd h2 (by decide)
    · exact h2

lemma completedAsk_qr_ext (ao ao2 : AskOracle)
    (h : ao.getQueryResult = ao2.getQueryResult) (cid : String) (md : MsgData) :
    completedAsk ao cid md = completedAsk ao2 cid md := by
  obtain ⟨s, atts⟩ := md
  cases atts with
  | nil => rfl
  | cons a t => simp only [completedAsk, h]

lemma completedFollow_qr_ext (fo fo2 : FollowOracle)
    (h : fo.getQueryResult = fo2.getQueryResult) (cid : String) (md : MsgData) :
    completedFollow fo cid md = completedFollow fo2 cid md := by
  obtain ⟨s, atts⟩ := md
  cases atts with
  | nil => rfl
  | cons a t => simp only [completedFollow, h]

/-- C7: on a COMPLETED poll with at least one attachment, the whole run of
`ask_genie` and of `follow_up` (trace and outcome) depends only on the
first attachment through its attachment id, its defaulted explanatory text
(absent text behaving as the default string) and its defaulted query
string, plus that attachment's fetched result: runs whose first attachments
agree on those and differ in the remaining attachments coincide. -/
theorem C7_first_attachment_only (cid mid cid2 mid2 : String) (st : Nat → String)
    (atts1 atts2 : Nat → List Attachment)
    (qr : Option String → Except PyExn (HttpResp QueryResultJson)) (n : Nat) (hn : n < 60)
    (hb : ∀ j, j < n → st j ≠ "COMPLETED" ∧ st j ≠ "FAILED" ∧ st j ≠ "CANCELLED")
    (hc : st n = "COMPLETED") (a1 a2 : Attachment) (t1 t2 : List Attachment)
    (h1 : atts1 n = a1 :: t1) (h2 : atts2 n = a2 :: t2)
    (hid : a1.attachment_id = a2.attachment_id)
    (htext : a1.text.getD "No text." = a2.text.getD "No text.")
    (hquery : a1.query.getD "No SQL." = a2.query.getD "No SQL.") :
    askGenie (mkAskOracle cid mid st atts1 qr) = askGenie (mkAskOracle cid mid st atts2 qr) ∧
    followUp (mkFollowOracle mid2 st atts1 qr) cid2 =
      followUp (mkFollowOracle mid2 st atts2 qr) cid2 := by
  have hr1 := askGenie_completed_run cid mid st atts1 qr n hn hb hc
  have hr2 := askGenie_completed_run cid mid st atts2 qr n hn hb hc
  have hf1 := followUp_completed_run cid2 mid2 st atts1 qr n hn hb hc
  have hf2 := followUp_completed_run cid2 mid2 st atts2 qr n hn hb hc
  rw [h1] at hr1 hf1
  rw [h2] at hr2 hf2
  constructor
  · rw [hr1, hr2,
      completedAsk_qr_ext (mkAskOracle cid mid st atts1 qr) (mkAskOracle cid mid st atts2 qr)
        rfl cid ⟨"COMPLETED", a1 :: t1⟩,
      completedAsk_firstOnly (mkAskOracle cid mid st atts2 qr) cid a1 a2 t1 t2 hid htext hquery]
  · rw [hf1, hf2,
      completedFollow_qr_ext (mkFollowOracle mid2 st atts1 qr) (mkFollowOracle mid2 st atts2 qr)
        rfl cid2 ⟨"COMPLETED", a1 :: t1⟩,
      completedFollow_firstOnly (mkFollowOracle mid2 st atts2 qr) cid2 a1 a2 t1 t2 hid
        htext hquery]

/-- Witness for C7: a trailing second attachment and a first attachment with
explicit default-equal fields do not change the outcome. -/
theorem C7_witness :
    askGenie (mkAskOracle "c1" "m1" (fun _ => "COMPLETED")
        (fun _ => [⟨some "at1", none, none⟩]) (fun _ => cleanHttp ⟨none⟩)) =
      askGenie (mkAskOracle "c1" "m1" (fun _ => "COMPLETED")
        (fun _ => [⟨some "at1", some "No text.", some "No SQL."⟩,
          ⟨some "at2", some "ignored", some "ignored"⟩]) (fun _ => cleanHttp ⟨none⟩)) := by
  have h := C7_first_attachment_only "c1" "m1" "c2" "m2" (fun _ => "COMPLETED")
    (fun _ => [⟨some "at1", none, none⟩])
    (fun _ => [⟨some "at1", some "No text.", some "No SQL."⟩,
      ⟨some "at2", some "ignored", some "ignored"⟩])
    (fun _ => cleanHttp ⟨none⟩) 0 (by decide) (fun j hj => absurd hj (by omega)) rfl
    ⟨some "at1", none, none⟩ ⟨some "at1", some "No text.", some "No SQL."⟩ []
    [⟨some "at2", some "ignored", some "ignored"⟩] rfl rfl rfl (by decide) (by decide)
  exact h.1

/-- C8: with the same status stream, attachments and query-result responses
after submission, `ask_genie` and `follow_up` produce the same event trace
and outcomes of the same kind (equal up to the conversation id carried). -/
theorem C8_ask_follow_same_kind (cid mid cid2 mid2 : String) (st : Nat → String)
    (atts : Nat → List Attachment)
    (qr : Option String → Except PyExn (HttpResp QueryResultJson)) :
    ((askGenie (mkAskOracle cid mid st atts qr)).2).kind =
      ((followUp (mkFollowOracle mid2 st atts qr) cid2).2).kind ∧
    (askGenie (mkAskOracle cid mid st atts qr)).1 =
      (followUp (mkFollowOracle mid2 st atts qr) cid2).1 := by
  have h := pollLoop_kind (mkAskOracle cid mid st atts qr) (mkFollowOracle mid2 st atts qr)
    rfl rfl cid cid2 60 0
  rw [askGenie_eq_loop, followUp_eq_loop]
  exact ⟨h.2, h.1⟩

/-- C9: with a well-formed describe-space response, the operation returns
the incomplete-data message exactly when one of the three required fields
is missing, and the fully formatted metadata (which is never the
incomplete-data message) when all three are present. -/
theorem C9_metadata_validation (data : SpaceJson) :
    (getGenieSpaceMetadata ⟨cleanHttp data⟩ = incompleteMetaMsg ↔
      (data.space_id = none ∨ data.title = none ∨ data.description = none)) ∧
    (∀ sid t d, data.space_id = some sid → data.title = some t →
      data.description = some d →
      getGenieSpaceMetadata ⟨cleanHttp data⟩ = formatMeta sid t d) := by
  obtain ⟨s, t, d⟩ := data
  constructor
  · cases s with
    | none => simp [getGenieSpaceMetadata, metadataBody, cleanHttp]
    | some sid =>
      cases t with
      | none => simp [getGenieSpaceMetadata, metadataBody, cleanHttp]
      | some tt =>
        cases d with
        | none => simp [getGenieSpaceMetadata, metadataBody, cleanHttp]
        | some dd =>
          simp [getGenieSpaceMetadata, metadataBody, cleanHttp, formatMeta_ne sid tt dd]
  · intro sid tt dd hs ht hd
    simp only at hs ht hd
    subst hs
    subst ht
    subst hd
    simp [getGenieSpaceMetadata, metadataBody, cleanHttp]

/-- Witness for C9: all three fields present, and one field missing. -/
theorem C9_witness :
    getGenieSpaceMetadata ⟨cleanHttp ⟨some "s1", some "t1", some "d1"⟩⟩ =
      formatMeta "s1" "t1" "d1" ∧
    getGenieSpaceMetadata ⟨cleanHttp ⟨some "s1", some "t1", none⟩⟩ = incompleteMetaMsg := by
  constructor
  · exact (C9_metadata_validation ⟨some "s1", some "t1", some "d1"⟩).2 "s1" "t1" "d1" rfl rfl rfl
  · exact (C9_metadata_validation ⟨some "s1", some "t1", none⟩).1.mpr (by simp)
